import Mathlib

/-!
Verification of the qa-youtube-chatbot pipeline: a shallow embedding of the
retrieval-constrained QA tool (src/agents/qa_agent.py), the ingestion
pipeline and chunker (src/main.py), the transcript fetcher and cache
(src/tools/youtube_tool.py), and the index store (src/tools/chromadb_tool.py),
together with theorems settling the behavioural claims about them.
-/

namespace YTQA

/-! ## QA tool (src/agents/qa_agent.py, strict_qa_tool) -/

/-- Refusal string returned when retrieval yields zero source documents
(qa_agent.py line 63). -/
def emptyRetrievalRefusal : String :=
  "I don't have information about this in the video content."

/-- Refusal string returned from the exception handler
(qa_agent.py line 69). -/
def exceptionRefusal : String :=
  "I couldn't find specific information about that in the video content."

/-- The dictionary returned by `qa_chain.invoke`: the synthesized answer in
`result` and the retrieved documents in `source_documents`
(RetrievalQA with return_source_documents=True). -/
structure QAResult where
  result : String
  source_documents : List String
deriving Repr, DecidableEq

/-- `strict_qa_tool` from qa_agent.py lines 48-69: invoke the chain; if it
raises, return the exception refusal; if it retrieved no documents, return
the fixed empty-retrieval refusal; otherwise return only the `result`
field, never the source documents.  The chain is modelled as a function
that either raises (`Except.error`) or returns a `QAResult`. -/
def strict_qa_tool (qa_chain : String → Except String QAResult)
    (query : String) : String :=
  match qa_chain query with
  | Except.error _ => exceptionRefusal
  | Except.ok r =>
      if r.source_documents.isEmpty then emptyRetrievalRefusal
      else r.result

/-! ## Chunker (src/main.py, process_videos_node lines 86-91) -/

/-- A LangChain `Document` as built in process_videos_node: the chunk text
and the source URL metadata. -/
structure Document where
  page_content : String
  source : String
deriving Repr, DecidableEq

/-- The windows produced by `for i in range(0, len(transcript), 100):
transcript[i:i+100]` — contiguous non-overlapping runs of 100 segments,
the last one possibly shorter. -/
def chunkWindows : List String → List (List String)
  | [] => []
  | s :: rest =>
      (s :: rest).take 100 :: chunkWindows ((s :: rest).drop 100)
termination_by l => l.length
decreasing_by
  simp only [List.length_drop, List.length_cons]
  omega

/-- The chunk documents built for one URL in process_videos_node: each
window's text is `" ".join(transcript[i:i+100])` and the metadata records
the source URL. -/
def chunkDocs (url : String) (transcript : List String) : List Document :=
  (chunkWindows transcript).map
    (fun w => { page_content := String.intercalate " " w, source := url })

/-! ## Ingestion pipeline (src/main.py, process_videos_node and
store_embeddings_node) -/

/-- The per-URL loop of process_videos_node (main.py lines 80-97): for each
URL, try to fetch the transcript and append its chunk documents; any
exception makes the loop skip that URL and continue with the rest.  The
fetch-and-chunk step for one URL is modelled as a function that either
raises (`Except.error`) or returns the transcript segments. -/
def process_videos (fetch : String → Except String (List String)) :
    List String → List Document
  | [] => []
  | url :: rest =>
      match fetch url with
      | Except.error _ => process_videos fetch rest
      | Except.ok transcript => chunkDocs url transcript ++ process_videos fetch rest

/-- Error message of the no-chunks ValueError (main.py line 118). -/
def noChunksMsg : String := "No valid chunks found from any videos"

/-- store_embeddings_node's guard (main.py lines 116-118): raise the
no-chunks ValueError when the accumulated chunk list is empty, otherwise
proceed to index-building over all accumulated chunks. -/
def store_embeddings_node (all_chunks : List Document) :
    Except String (List Document) :=
  if all_chunks.isEmpty then Except.error noChunksMsg
  else Except.ok all_chunks

/-! ## Agent loop (src/agents/qa_agent.py, create_qa_agent lines 128-136)

Modelled from the spec: the outer agent loop is the library `AgentExecutor`,
whose code is not part of this repository — the repository only configures
it with `max_iterations=3` and `early_stopping_method="generate"`.  Per the
spec (§4.5), each round the agent either emits a final answer or calls the
single retrieval tool and observes its text output; when the iteration cap
is reached without a final answer the loop stops and returns the last
available tool output instead of raising. -/

/-- One decision of the agent given the tool observations so far: either a
final answer or a tool call whose observation is the tool's text output. -/
inductive AgentStep where
  | final (answer : String)
  | toolCall (observation : String)
deriving Repr, DecidableEq

/-- The iteration cap configured in create_qa_agent (max_iterations=3). -/
def maxIterations : Nat := 3

/-- The bounded agent loop: run up to `fuel` rounds; a final answer stops
the loop, a tool call records its observation as the last available answer
text; exhausted fuel returns that text.  Returns the answer together with
the number of rounds executed. -/
def runAgentFrom (step : List String → AgentStep) :
    Nat → List String → String → String × Nat
  | 0, _, last => (last, 0)
  | fuel + 1, obs, _ =>
      match step obs with
      | AgentStep.final a => (a, 1)
      | AgentStep.toolCall o =>
          let r := runAgentFrom step fuel (obs ++ [o]) o
          (r.1, r.2 + 1)

/-- The agent loop as configured in the repository: cap of 3 rounds,
starting with no observations. -/
def runAgent (step : List String → AgentStep) : String × Nat :=
  runAgentFrom step maxIterations [] ""

/-! ## Transcript fetcher and cache (src/tools/youtube_tool.py) -/

/-- One element of the list returned by the external transcript source
(`YouTubeTranscriptApi.get_transcript`); only its `text` field is used. -/
structure TranscriptItem where
  text : String
deriving Repr, DecidableEq

/-- The transcript cache: the in-memory dict `transcript_cache` and the
JSON cache file it is dumped to.  Both map a video id to its segment list;
lookups take the most recent binding, mirroring dict assignment. -/
structure CacheState where
  mem : List (String × List String)
  file : List (String × List String)
deriving Repr, DecidableEq

/-- Writing one entry as youtube_tool.py lines 44-46 do: update the
in-memory dict, then immediately dump the whole dict to the cache file. -/
def cache_put (cache : CacheState) (video_id : String)
    (transcript : List String) : CacheState :=
  let mem := (video_id, transcript) :: cache.mem
  { mem := mem, file := mem }

/-- Result of one `get_youtube_transcript` call: the returned segment list,
the cache state afterwards, and whether the external source was called. -/
structure FetchResult where
  transcript : List String
  cache : CacheState
  calledExternal : Bool
deriving Repr, DecidableEq

/-- `get_youtube_transcript` (youtube_tool.py lines 16-51): extract the
video id (empty result if none), serve from the cache on a hit, otherwise
call the external source — caching the extracted texts on success, and
returning an empty list with the cache untouched when the source raises.
`extract_video_id` (from tools/utils.py, whose source is not provided) and
the external source are taken as parameters. -/
def get_youtube_transcript
    (extract_video_id : String → Option String)
    (fetchExternal : String → Except String (List TranscriptItem))
    (cache : CacheState) (url : String) : FetchResult :=
  match extract_video_id url with
  | none => { transcript := [], cache := cache, calledExternal := false }
  | some video_id =>
      match cache.mem.lookup video_id with
      | some cached =>
          { transcript := cached, cache := cache, calledExternal := false }
      | none =>
          match fetchExternal video_id with
          | Except.error _ =>
              { transcript := [], cache := cache, calledExternal := true }
          | Except.ok transcript_list =>
              let transcript := transcript_list.map TranscriptItem.text
              { transcript := transcript
                cache := cache_put cache video_id transcript
                calledExternal := true }

/-! ## Index store (src/tools/chromadb_tool.py, store_embeddings) -/

/-- One character of `re.sub(r'[^a-zA-Z0-9_]', '_', name)`: characters
outside [a-zA-Z0-9_] become an underscore, the rest are kept. -/
def sanitizeChar (c : Char) : Char :=
  if c.isAlphanum || c == '_' then c else '_'

/-- The collection-name sanitization of chromadb_tool.py line 29: replace
every character outside [a-zA-Z0-9_] by an underscore. -/
def sanitize_collection_name (s : String) : String :=
  String.mk (s.data.map sanitizeChar)

/-- The on-disk layout of the vector-index store: one directory per
sanitized collection name, holding the documents indexed under it. -/
abbrev IndexStore : Type := List (String × List Document)

/-- `store_embeddings` (chromadb_tool.py lines 10-53) acting on the index
store: default the collection name, sanitize it, then try to remove any
pre-existing directory under the sanitized name.  The `shutil.rmtree` call
is wrapped in a try/except (lines 35-40) that only prints a warning on
failure and continues; `rmtree_ok` says whether the removal succeeded.
`Chroma.from_documents` then persists the batch under the sanitized
collection name — into a fresh directory when the removal succeeded (or
none existed), but on top of the surviving stale index when it failed.
Returns the sanitized name (the handle) and the new store state. -/
def store_embeddings (rmtree_ok : Bool) (fs : IndexStore)
    (documents : List Document) (collection_name : Option String) :
    String × IndexStore :=
  let name := collection_name.getD "default_collection"
  let safe := sanitize_collection_name name
  let afterRemove := if rmtree_ok then fs.filter (fun p => p.1 ≠ safe) else fs
  let existing := (afterRemove.lookup safe).getD []
  (safe, (safe, existing ++ documents) :: afterRemove.filter (fun p => p.1 ≠ safe))

/-! ## Concrete fixtures used by witnesses and counterexamples -/

/-- A QA chain that always succeeds with an empty retrieval. -/
def emptyRetrievalChain : String → Except String QAResult :=
  fun _ => Except.ok { result := "synthesized", source_documents := [] }

/-- A QA chain that always raises. -/
def failingChain : String → Except String QAResult :=
  fun _ => Except.error "rate limit"

/-- An agent that always calls the tool and observes the count of prior
observations. -/
def countingStep : List String → AgentStep :=
  fun obs => AgentStep.toolCall (toString obs.length)

/-- A fetch-and-chunk step that fails on the URL "bad" and returns a
two-segment transcript otherwise. -/
def sampleFetch : String → Except String (List String) :=
  fun u => if u = "bad" then Except.error "fetch failed"
           else Except.ok ["hello", "world"]

/-- An empty transcript cache. -/
def emptyCache : CacheState := { mem := [], file := [] }

/-- An external transcript source that always fails. -/
def unavailableSource : String → Except String (List TranscriptItem) :=
  fun _ => Except.error "TranscriptUnavailable"

/-- An external transcript source that always returns one segment. -/
def singleSegmentSource : String → Except String (List TranscriptItem) :=
  fun _ => Except.ok [{ text := "hello" }]

/-- A URL-to-id extractor that always finds the id "vid123". -/
def constExtract : String → Option String := fun _ => some "vid123"

/-- Documents of a previous ingestion batch. -/
def oldBatch : List Document := [{ page_content := "old", source := "u1" }]

/-- Documents of the current ingestion batch. -/
def newBatch : List Document := [{ page_content := "new", source := "u2" }]

/-- An index store holding a stale index under the collection name used by
the pipeline. -/
def staleStore : IndexStore := [("multiple_videos_collection", oldBatch)]

/-! ## Chunker lemmas -/

/-- Concatenating the windows in order rebuilds the segment list. -/
theorem chunkWindows_flatten (segs : List String) :
    (chunkWindows segs).flatten = segs := by
  induction segs using chunkWindows.induct with
  | case1 => simp [chunkWindows]
  | case2 s rest ih =>
      rw [chunkWindows, List.flatten_cons, ih, List.take_append_drop]

/-- A window list is empty exactly when the segment list is. -/
theorem chunkWindows_eq_nil_iff (segs : List String) :
    chunkWindows segs = [] ↔ segs = [] := by
  cases segs with
  | nil => simp [chunkWindows]
  | cons s rest => simp [chunkWindows]

/-- Every window is nonempty and holds at most 100 segments. -/
theorem chunkWindows_sizes (segs : List String) :
    (chunkWindows segs).all (fun w => !w.isEmpty && decide (w.length ≤ 100)) = true := by
  induction segs using chunkWindows.induct with
  | case1 => simp [chunkWindows]
  | case2 s rest ih =>
      rw [chunkWindows, List.all_cons, ih, Bool.and_true]
      have hne : List.take 100 (s :: rest) ≠ [] := by
        simp
      have hle : (List.take 100 (s :: rest)).length ≤ 100 := by
        simp [List.length_take]
      simp [hne, hle, List.isEmpty_iff]

/-- Every window except possibly the last holds exactly 100 segments. -/
theorem chunkWindows_dropLast_full (segs : List String) :
    ((chunkWindows segs).dropLast).all (fun w => w.length == 100) = true := by
  induction segs using chunkWindows.induct with
  | case1 => simp [chunkWindows]
  | case2 s rest ih =>
      rw [chunkWindows]
      rcases hd : chunkWindows ((s :: rest).drop 100) with _ | ⟨w, ws⟩
      · rfl
      · rw [hd] at ih
        have hlen : 100 < (s :: rest).length := by
          by_contra hle
          push_neg at hle
          rw [List.drop_eq_nil_of_le hle] at hd
          exact absurd hd.symm (by simp [chunkWindows])
        rw [List.dropLast_cons₂, List.all_cons, ih, Bool.and_true]
        simp only [List.length_take, beq_iff_eq]
        omega

/-! ## Claim theorems -/

/-- C1: whenever the QA chain returns successfully, the tool's output is
exactly the fixed refusal string "I don't have information about this in
the video content." when zero source documents were retrieved, and
otherwise exactly the synthesized `result` text — so the raw retrieved
documents are never part of the tool's successful output. -/
theorem strict_qa_tool_grounded (qa_chain : String → Except String QAResult)
    (query : String) (r : QAResult) (h : qa_chain query = Except.ok r) :
    strict_qa_tool qa_chain query =
      if r.source_documents.isEmpty then emptyRetrievalRefusal
      else r.result := by
  simp [strict_qa_tool, h]

/-- Witness for C1: on a chain that retrieves zero documents the tool
returns the fixed refusal string. -/
theorem strict_qa_tool_grounded_witness :
    strict_qa_tool emptyRetrievalChain "what is discussed?" =
      emptyRetrievalRefusal := by
  have h := strict_qa_tool_grounded emptyRetrievalChain "what is discussed?"
    { result := "synthesized", source_documents := [] } rfl
  simpa using h

/-- C2 counterexample: on a chain that raises, the tool does not return the
empty-retrieval refusal string — it returns the distinct exception refusal
"I couldn't find specific information about that in the video content." -/
theorem strict_qa_tool_exception_string_differs :
    strict_qa_tool failingChain "what is discussed?" = exceptionRefusal ∧
    strict_qa_tool failingChain "what is discussed?" ≠ emptyRetrievalRefusal := by
  constructor
  · rfl
  · decide

/-- C2 (amended): any exception raised by the retrieval capability or the
language model inside the QA tool is caught at the tool boundary and
converted into the fixed exception-refusal string — which differs from the
empty-retrieval refusal — so the caller always receives a textual answer
and never a propagated exception. -/
theorem strict_qa_tool_catches_exceptions
    (qa_chain : String → Except String QAResult) (query : String)
    (e : String) (h : qa_chain query = Except.error e) :
    strict_qa_tool qa_chain query = exceptionRefusal ∧
    exceptionRefusal ≠ emptyRetrievalRefusal := by
  refine ⟨?_, by decide⟩
  simp [strict_qa_tool, h]

/-- Witness for C2 (amended): the always-raising chain yields the
exception refusal. -/
theorem strict_qa_tool_catches_exceptions_witness :
    strict_qa_tool failingChain "anything" = exceptionRefusal :=
  (strict_qa_tool_catches_exceptions failingChain "anything" "rate limit" rfl).1

/-- C4: the chunker partitions the segment list into contiguous,
non-overlapping windows — flattening the windows in order rebuilds the
original segment sequence exactly; every window except possibly the last
has exactly 100 segments; every window is nonempty with at most 100
segments; each chunk document's text is the space-joined concatenation of
its window and its metadata carries the source URL; and the empty segment
list yields the empty chunk list. -/
theorem chunker_spec (url : String) (segs : List String) :
    (chunkWindows segs).flatten = segs ∧
    ((chunkWindows segs).dropLast).all (fun w => w.length == 100) = true ∧
    (chunkWindows segs).all (fun w => !w.isEmpty && decide (w.length ≤ 100)) = true ∧
    (chunkDocs url segs).map Document.page_content =
      (chunkWindows segs).map (fun w => String.intercalate " " w) ∧
    (chunkDocs url segs).map Document.source =
      List.replicate (chunkWindows segs).length url ∧
    chunkDocs url [] = [] := by
  refine ⟨chunkWindows_flatten segs, chunkWindows_dropLast_full segs,
    chunkWindows_sizes segs, ?_, ?_, ?_⟩
  · simp [chunkDocs]
  · rw [chunkDocs, List.map_map]
    have hcomp : (Document.source ∘ fun w : List String =>
        ({ page_content := String.intercalate " " w, source := url } : Document)) =
        fun _ => url := rfl
    rw [hcomp, List.map_const']
  · simp [chunkDocs, chunkWindows]

/-- The loop never runs more rounds than its fuel allows. -/
theorem runAgentFrom_count_le (step : List String → AgentStep) :
    ∀ (fuel : Nat) (obs : List String) (last : String),
      (runAgentFrom step fuel obs last).2 ≤ fuel := by
  intro fuel
  induction fuel with
  | zero => intro obs last; simp [runAgentFrom]
  | succ n ih =>
      intro obs last
      rw [runAgentFrom]
      cases h : step obs with
      | final a => simp
      | toolCall o => simpa using ih (obs ++ [o]) o

/-- C3: the outer agent loop performs at most `maxIterations = 3` rounds,
and when every round is a tool call — the cap is reached without a final
answer — the loop runs exactly 3 rounds and returns the observation of the
last tool call (the last available answer text) instead of raising or
returning an empty string. -/
theorem agent_loop_bounded (step : List String → AgentStep) :
    (runAgent step).2 ≤ maxIterations ∧
    (∀ tool : List String → String,
      (∀ obs, step obs = AgentStep.toolCall (tool obs)) →
        (runAgent step).2 = maxIterations ∧
        (runAgent step).1 = tool [tool [], tool [tool []]]) := by
  constructor
  · exact runAgentFrom_count_le step maxIterations [] ""
  · intro tool h
    simp only [runAgent, maxIterations]
    rw [show (3:Nat) = 2 + 1 from rfl, runAgentFrom, h]
    simp only []
    rw [show (2:Nat) = 1 + 1 from rfl, runAgentFrom, h]
    simp only []
    rw [show (1:Nat) = 0 + 1 from rfl, runAgentFrom, h]
    simp only []
    rw [runAgentFrom]
    simp

/-- Witness for C3: an agent that always calls the tool stops after exactly
3 rounds with the last tool observation as its answer. -/
theorem agent_loop_bounded_witness :
    (runAgent countingStep).2 = 3 ∧ (runAgent countingStep).1 = "2" := by
  have h := (agent_loop_bounded countingStep).2
    (fun obs => toString obs.length) (fun _ => rfl)
  exact ⟨h.1, by simpa using h.2⟩

/-- C5: the accumulated chunk list is exactly the concatenation, in URL
order, of the chunk documents of every URL whose fetch succeeded — a
failing URL contributes nothing but does not abort the batch; the
no-chunks ValueError is raised exactly when the accumulated list is empty;
and otherwise the index-building stage proceeds over all accumulated
chunks. -/
theorem ingestion_skip_and_no_chunks
    (fetch : String → Except String (List String)) (urls : List String) :
    process_videos fetch urls =
      (urls.map (fun u =>
        match fetch u with
        | Except.error _ => []
        | Except.ok t => chunkDocs u t)).flatten ∧
    (store_embeddings_node (process_videos fetch urls) =
        Except.error noChunksMsg ↔ process_videos fetch urls = []) ∧
    (process_videos fetch urls ≠ [] →
      store_embeddings_node (process_videos fetch urls) =
        Except.ok (process_videos fetch urls)) := by
  refine ⟨?_, ?_, ?_⟩
  · induction urls with
    | nil => rfl
    | cons u rest ih =>
        cases h : fetch u with
        | error e => simp [process_videos, h, ih]
        | ok t => simp [process_videos, h, ih]
  · constructor
    · intro h
      by_contra hne
      simp [store_embeddings_node, List.isEmpty_iff, hne] at h
    · intro h
      simp [store_embeddings_node, h]
  · intro h
    simp [store_embeddings_node, List.isEmpty_iff, h]

/-- Witness for C5: in a batch where the URL "bad" fails, the surviving
chunks of "good" are accumulated and index building proceeds over them. -/
theorem ingestion_skip_and_no_chunks_witness :
    store_embeddings_node (process_videos sampleFetch ["good", "bad"]) =
      Except.ok (process_videos sampleFetch ["good", "bad"]) :=
  (ingestion_skip_and_no_chunks sampleFetch ["good", "bad"]).2.2 (by
    simp [process_videos, sampleFetch, chunkDocs, chunkWindows])

/-- C6: the transcript fetch returns an empty sequence instead of raising,
both when no video id is extractable from the URL and when the external
transcript source fails (the embedding is a total function, so no
exception can propagate to the batch loop). -/
theorem fetch_failure_returns_empty
    (extract_video_id : String → Option String)
    (fetchExternal : String → Except String (List TranscriptItem))
    (cache : CacheState) (url : String) :
    (extract_video_id url = none →
      (get_youtube_transcript extract_video_id fetchExternal cache url).transcript
        = []) ∧
    (∀ vid e, extract_video_id url = some vid →
      cache.mem.lookup vid = none →
      fetchExternal vid = Except.error e →
      (get_youtube_transcript extract_video_id fetchExternal cache url).transcript
        = []) := by
  constructor
  · intro h
    simp [get_youtube_transcript, h]
  · intro vid e h1 h2 h3
    simp [get_youtube_transcript, h1, h2, h3]

/-- Witness for C6: an unextractable URL and a failing external source
both yield the empty transcript. -/
theorem fetch_failure_returns_empty_witness :
    (get_youtube_transcript (fun _ => none) unavailableSource emptyCache
        "u").transcript = [] ∧
    (get_youtube_transcript constExtract unavailableSource emptyCache
        "u").transcript = [] := by
  refine ⟨(fetch_failure_returns_empty (fun _ => none) unavailableSource
      emptyCache "u").1 rfl,
    (fetch_failure_returns_empty constExtract unavailableSource
      emptyCache "u").2 "vid123" "TranscriptUnavailable" rfl rfl rfl⟩

/-- C7: a cache write stores the segments in memory and immediately
persists the identical mapping to the cache file, reading the id back
returns the segments unchanged from both; and after a successful first
fetch for a URL, a second fetch for the same URL returns the same
transcript from the cache without calling the external source. -/
theorem cache_roundtrip_and_hit
    (cache : CacheState) (vid : String) (segs : List String)
    (extract_video_id : String → Option String)
    (fetchExternal : String → Except String (List TranscriptItem))
    (url : String) :
    (cache_put cache vid segs).mem.lookup vid = some segs ∧
    (cache_put cache vid segs).file.lookup vid = some segs ∧
    (cache_put cache vid segs).file = (cache_put cache vid segs).mem ∧
    (∀ items, extract_video_id url = some vid →
      cache.mem.lookup vid = none →
      fetchExternal vid = Except.ok items →
      (get_youtube_transcript extract_video_id fetchExternal
          (get_youtube_transcript extract_video_id fetchExternal cache
            url).cache url).transcript =
        (get_youtube_transcript extract_video_id fetchExternal cache
          url).transcript ∧
      (get_youtube_transcript extract_video_id fetchExternal
          (get_youtube_transcript extract_video_id fetchExternal cache
            url).cache url).calledExternal = false) := by
  refine ⟨by simp [cache_put, List.lookup], by simp [cache_put, List.lookup],
    rfl, ?_⟩
  intro items h1 h2 h3
  constructor
  · simp [get_youtube_transcript, h1, h2, h3, cache_put, List.lookup]
  · simp [get_youtube_transcript, h1, h2, h3, cache_put, List.lookup]

/-- Witness for C7: a concrete put-then-get round trip, and a second fetch
served from the cache without an external call. -/
theorem cache_roundtrip_and_hit_witness :
    (cache_put emptyCache "vid123" ["hello"]).mem.lookup "vid123" =
      some ["hello"] ∧
    (get_youtube_transcript constExtract singleSegmentSource
        (get_youtube_transcript constExtract singleSegmentSource emptyCache
          "u").cache "u").calledExternal = false := by
  have h := cache_roundtrip_and_hit emptyCache "vid123" ["hello"]
    constExtract singleSegmentSource "u"
  exact ⟨h.1, (h.2.2.2 [{ text := "hello" }] rfl rfl rfl).2⟩

/-- Filtering out a key makes its lookup miss. -/
theorem lookup_filter_ne (fs : IndexStore) (safe : String) :
    (fs.filter (fun p => !decide (p.1 = safe))).lookup safe = none := by
  simp
  exact fun a b _ hne e => hne e.symm

/-- C8 counterexample: when the removal of the stale directory fails — a
path chromadb_tool.py lines 36-40 swallow with a warning — the new batch
is persisted on top of the stale index: the resulting collection holds the
stale documents followed by the new ones, not only the current batch. -/
theorem store_embeddings_merge_counterexample :
    (store_embeddings false staleStore newBatch
        (some "multiple_videos_collection")).2.lookup
      "multiple_videos_collection" = some (oldBatch ++ newBatch) ∧
    oldBatch ++ newBatch ≠ newBatch := by
  constructor
  · rfl
  · decide

/-- C8 (amended): building the index attempts to delete any pre-existing
index under the sanitized collection name before creating the new one.
When the removal succeeds (or none existed) the resulting index under the
handle holds exactly the current batch's documents — never a merge with a
stale index — independently of the previous store contents; but when the
removal fails the code continues with only a warning and the batch is
merged onto the surviving stale index's documents. -/
theorem store_embeddings_fresh (fs : IndexStore) (docs : List Document)
    (collection_name : Option String) :
    (store_embeddings true fs docs collection_name).2.lookup
      (store_embeddings true fs docs collection_name).1 = some docs ∧
    (∀ d, ((store_embeddings true fs docs collection_name).1, d) ∈
        (store_embeddings true fs docs collection_name).2 → d = docs) ∧
    (∀ fs2 : IndexStore,
      (store_embeddings true fs docs collection_name).2.lookup
          (store_embeddings true fs docs collection_name).1 =
        (store_embeddings true fs2 docs collection_name).2.lookup
          (store_embeddings true fs2 docs collection_name).1) ∧
    (store_embeddings false fs docs collection_name).2.lookup
        (store_embeddings false fs docs collection_name).1 =
      some ((fs.lookup
        (store_embeddings false fs docs collection_name).1).getD [] ++ docs) := by
  refine ⟨?_, ?_, ?_, ?_⟩
  · simp [store_embeddings, List.lookup, lookup_filter_ne]
  · intro d hd
    simp only [store_embeddings, List.mem_cons, List.mem_filter] at hd
    rcases hd with h | ⟨_, hne⟩
    · have := (Prod.mk.injEq _ _ _ _ ▸ h).2
      simpa [lookup_filter_ne] using this
    · simp at hne
  · intro fs2
    simp [store_embeddings, List.lookup, lookup_filter_ne]
  · simp [store_embeddings, List.lookup]

/-- Witness for C8 (amended): with the removal succeeding, ingesting a new
batch under a collection name already holding a stale index replaces it —
the lookup returns the new batch and the stale entry is gone. -/
theorem store_embeddings_fresh_witness :
    (store_embeddings true staleStore newBatch
        (some "multiple_videos_collection")).2.lookup
      "multiple_videos_collection" = some newBatch ∧
    ("multiple_videos_collection", oldBatch) ∉
      (store_embeddings true staleStore newBatch
        (some "multiple_videos_collection")).2 := by
  have h := store_embeddings_fresh staleStore newBatch
    (some "multiple_videos_collection")
  refine ⟨by simpa using h.1, fun hmem => ?_⟩
  have := h.2.1 oldBatch (by simpa using hmem)
  simp [oldBatch, newBatch] at this

/-- C9: sanitization maps every collection name to one whose characters
are all alphanumeric or underscore; the output is the character-wise image
of the input (same input always yields the same name); characters already
in [a-zA-Z0-9_] are kept and every other character becomes an
underscore. -/
theorem sanitize_spec (s : String) :
    ((sanitize_collection_name s).data.all
        (fun c => c.isAlphanum || c == '_')) = true ∧
    (sanitize_collection_name s).data = s.data.map sanitizeChar ∧
    (∀ c : Char, (c.isAlphanum || c == '_') = true → sanitizeChar c = c) ∧
    (∀ c : Char, (c.isAlphanum || c == '_') = false → sanitizeChar c = '_') := by
  refine ⟨?_, rfl, ?_, ?_⟩
  · rw [sanitize_collection_name]
    show (s.data.map sanitizeChar).all _ = true
    rw [List.all_map]
    apply List.all_eq_true.mpr
    intro c _
    show ((sanitizeChar c).isAlphanum || (sanitizeChar c == '_')) = true
    rw [sanitizeChar]
    rcases h : (c.isAlphanum || c == '_') with _ | _
    · simp
    · simpa using h
  · intro c h
    simp [sanitizeChar, h]
  · intro c h
    simp [sanitizeChar, h]

/-- Witness for C9: a name with spaces and punctuation is sanitized to
underscores; a valid character is kept; an invalid one is replaced. -/
theorem sanitize_spec_witness :
    sanitize_collection_name "my videos!" = "my_videos_" ∧
    sanitizeChar 'a' = 'a' ∧ sanitizeChar ' ' = '_' := by
  refine ⟨by decide, (sanitize_spec "").2.2.1 'a' (by decide),
    (sanitize_spec "").2.2.2 ' ' (by decide)⟩

/-- C10: when the fetch fails — unextractable URL or failing external
source — the cache (in-memory dict and persisted file alike) is left
unchanged, and a later fetch for the same URL against a now-working source
calls the external source again and returns the fresh transcript instead
of a cached empty result. -/
theorem fetch_failure_cache_unchanged
    (extract_video_id : String → Option String)
    (fetchExternal : String → Except String (List TranscriptItem))
    (cache : CacheState) (url : String) :
    (extract_video_id url = none →
      (get_youtube_transcript extract_video_id fetchExternal cache url).cache
        = cache) ∧
    (∀ vid e, extract_video_id url = some vid →
      cache.mem.lookup vid = none →
      fetchExternal vid = Except.error e →
      (get_youtube_transcript extract_video_id fetchExternal cache url).cache
          = cache ∧
      ∀ (fetchRetry : String → Except String (List TranscriptItem)) items,
        fetchRetry vid = Except.ok items →
        (get_youtube_transcript extract_video_id fetchRetry
            (get_youtube_transcript extract_video_id fetchExternal cache
              url).cache url).calledExternal = true ∧
        (get_youtube_transcript extract_video_id fetchRetry
            (get_youtube_transcript extract_video_id fetchExternal cache
              url).cache url).transcript = items.map TranscriptItem.text) := by
  constructor
  · intro h
    simp [get_youtube_transcript, h]
  · intro vid e h1 h2 h3
    have hcache :
        (get_youtube_transcript extract_video_id fetchExternal cache url).cache
          = cache := by
      simp [get_youtube_transcript, h1, h2, h3]
    refine ⟨hcache, ?_⟩
    intro fetchRetry items h4
    rw [hcache]
    constructor
    · simp [get_youtube_transcript, h1, h2, h4]
    · simp [get_youtube_transcript, h1, h2, h4]

/-- Witness for C10: a failed fetch leaves the empty cache empty, and a
retry against a working source calls it and returns the transcript. -/
theorem fetch_failure_cache_unchanged_witness :
    (get_youtube_transcript constExtract unavailableSource emptyCache
        "u").cache = emptyCache ∧
    (get_youtube_transcript constExtract singleSegmentSource
        (get_youtube_transcript constExtract unavailableSource emptyCache
          "u").cache "u").transcript = ["hello"] := by
  have h := (fetch_failure_cache_unchanged constExtract unavailableSource
    emptyCache "u").2 "vid123" "TranscriptUnavailable" rfl rfl rfl
  exact ⟨h.1, (h.2 singleSegmentSource [{ text := "hello" }] rfl).2⟩

end YTQA
